import Mathlib

/-!
Verification of the retrieval core of the curriculum Q&A repository.

The development shallowly embeds the retrieval pipeline:
- the document indexers (`DocumentQA._create_documents` in `document_qa.py`
  and the inline chunk construction of `SmartQA.load_and_search` in `qa.py`),
- the chapter router (`SmartQA.find_chapter`),
- the query engine (`DocumentQA.ask` and the chunk post-processing of
  `SmartQA.load_and_search`),
- the context formatters (`DocumentQA.format_for_llm` and the inline
  formatting in `SmartQA.ask`),
- the chat front end (`MathBuddyChatbot.get_response` in `chatbot_rag.py`).

External collaborators (the sentence-transformer embedding model and the
chromadb vector index) are modelled as oracle inputs: functions or lists
supplied as arguments, exactly at the call boundary where the Python code
invokes them.  Machine reals are modelled as rationals.
-/

/-! ### Python-style string and dict helpers -/

/-- Truthiness of `s.strip()` in Python, i.e. `s` consists of whitespace only. -/
def pyIsBlank (s : String) : Bool := s.data.all Char.isWhitespace

/-- `d.get(k, default)` for a string-valued metadata dict (keys are unique). -/
def pyGet (m : List (String × String)) (k : String) (d : String) : String :=
  match m.find? (fun kv => kv.1 == k) with
  | some kv => kv.2
  | none => d

/-- Python `s.lower()`, character by character. -/
def pyLower (s : String) : String := String.mk (s.data.map Char.toLower)

/-- `pat in s` for a non-empty pattern string. -/
def pyContains (s pat : String) : Bool := (s.splitOn pat).length != 1

/-- `s.split(sep, 1)[1]`: everything after the first occurrence of `sep`. -/
def pySplitTail (s sep : String) : String :=
  match s.splitOn sep with
  | [] => s
  | [_] => s
  | _ :: rest => String.intercalate sep rest

/-- Round to the nearest integer, ties to even (Python `round` on exact values). -/
def roundHalfEven (q : ℚ) : ℤ :=
  if q - ⌊q⌋ < 1/2 then ⌊q⌋
  else if 1/2 < q - ⌊q⌋ then ⌊q⌋ + 1
  else if ⌊q⌋ % 2 = 0 then ⌊q⌋ else ⌊q⌋ + 1

/-- Python `round(q, 3)`. -/
def pyRound3 (q : ℚ) : ℚ := (roundHalfEven (q * 1000) : ℚ) / 1000

/-! ### Data model (§3 of the spec): topics and content blocks -/

structure ContentBlock where
  block_id : String
  type : String
  text : String
deriving DecidableEq

structure Topic where
  topic_id : String
  topic_name : String
  unit : Option String
  learning_objectives : List String
  allowed_concepts : List String
  disallowed_concepts : List String
  content_blocks : List ContentBlock
deriving DecidableEq

/-- A retrieval chunk as built by the indexers: id, text and a metadata dict. -/
structure Chunk where
  id : String
  text : String
  metadata : List (String × String)
deriving DecidableEq

/-- Projection of a chunk to the pair (text, doc_type) used to state ordering claims. -/
def chunkShape (c : Chunk) : String × String := (c.text, pyGet c.metadata "doc_type" "")

namespace DocumentQA

/-- The `base_metadata` dict of `DocumentQA._create_documents`. -/
def baseMetadata (unit topic_id topic_name source_file : String) : List (String × String) :=
  [("unit", unit), ("topic_id", topic_id), ("topic_name", topic_name),
   ("source_file", source_file)]

/-- The learning-objective loop of `DocumentQA._create_documents` (step 2),
threading the `doc_id` counter. -/
def loDocs (base : List (String × String)) : Nat → List String → List Chunk × Nat
  | docId, [] => ([], docId)
  | docId, lo :: rest =>
    let r := loDocs base (docId + 1) rest
    (⟨toString docId, "Learning Objective: " ++ lo,
      base ++ [("doc_type", "learning_objective")]⟩ :: r.1, r.2)

/-- The content-block loop of `DocumentQA._create_documents` (step 5): a chunk
is created only when `block_text.strip()` is truthy. -/
def contentDocs (base : List (String × String)) : Nat → List ContentBlock → List Chunk × Nat
  | docId, [] => ([], docId)
  | docId, b :: rest =>
    if pyIsBlank b.text then contentDocs base docId rest
    else
      let r := contentDocs base (docId + 1) rest
      (⟨toString docId, b.text,
        base ++ [("doc_type", "content_" ++ b.type), ("block_id", b.block_id)]⟩ :: r.1, r.2)

/-- One iteration of the topic loop of `DocumentQA._create_documents`:
overview, objectives, allowed banner, disallowed banner, content blocks. -/
def topicDocs (source_file unit_name : String) (docId : Nat) (t : Topic) :
    List Chunk × Nat :=
  let unit := t.unit.getD unit_name
  let base := baseMetadata unit t.topic_id t.topic_name source_file
  let overview : Chunk :=
    ⟨toString docId, "Topic: " ++ t.topic_name, base ++ [("doc_type", "topic_overview")]⟩
  let lo := loDocs base (docId + 1) t.learning_objectives
  let allowed : List Chunk × Nat :=
    if t.allowed_concepts.isEmpty then ([], lo.2)
    else ([(⟨toString lo.2,
            "Allowed concepts for " ++ t.topic_name ++ ": " ++
              String.intercalate ", " t.allowed_concepts,
            base ++ [("doc_type", "allowed_concepts")]⟩ : Chunk)], lo.2 + 1)
  let disallowed : List Chunk × Nat :=
    if t.disallowed_concepts.isEmpty then ([], allowed.2)
    else ([(⟨toString allowed.2,
            "Disallowed concepts (too advanced): " ++
              String.intercalate ", " t.disallowed_concepts,
            base ++ [("doc_type", "disallowed_concepts")]⟩ : Chunk)], allowed.2 + 1)
  let content := contentDocs base disallowed.2 t.content_blocks
  (overview :: (lo.1 ++ allowed.1 ++ disallowed.1 ++ content.1), content.2)

/-- The topic loop of `DocumentQA._create_documents`. -/
def createDocsAux (source_file unit_name : String) : Nat → List Topic → List Chunk
  | _, [] => []
  | docId, t :: rest =>
    let r := topicDocs source_file unit_name docId t
    r.1 ++ createDocsAux source_file unit_name r.2 rest

/-- `DocumentQA._create_documents` on an already-parsed list of topics. -/
def create_documents (source_file unit_name : String) (data : List Topic) : List Chunk :=
  createDocsAux source_file unit_name 0 data

end DocumentQA

namespace SmartQA

/-- The learning-objective loop of the chunk construction in
`SmartQA.load_and_search`. -/
def loDocs (base : List (String × String)) : Nat → List String → List Chunk × Nat
  | docId, [] => ([], docId)
  | docId, lo :: rest =>
    let r := loDocs base (docId + 1) rest
    (⟨toString docId, "Learning Objective: " ++ lo,
      base ++ [("doc_type", "objective")]⟩ :: r.1, r.2)

/-- The content-block loop of the chunk construction in `SmartQA.load_and_search`. -/
def contentDocs (base : List (String × String)) : Nat → List ContentBlock → List Chunk × Nat
  | docId, [] => ([], docId)
  | docId, b :: rest =>
    if pyIsBlank b.text then contentDocs base docId rest
    else
      let r := contentDocs base (docId + 1) rest
      (⟨toString docId, b.text,
        base ++ [("doc_type", "content_" ++ b.type)]⟩ :: r.1, r.2)

/-- One iteration of the topic loop of the chunk construction in
`SmartQA.load_and_search`: topic banner, objectives, allowed-concepts banner,
content blocks.  There is no disallowed-concepts step in this indexer. -/
def topicDocs (docId : Nat) (t : Topic) : List Chunk × Nat :=
  let base := [("topic_name", t.topic_name)]
  let overview : Chunk :=
    ⟨toString docId, "Topic: " ++ t.topic_name, base ++ [("doc_type", "topic")]⟩
  let lo := loDocs base (docId + 1) t.learning_objectives
  let allowed : List Chunk × Nat :=
    if t.allowed_concepts.isEmpty then ([], lo.2)
    else ([(⟨toString lo.2,
            "Concepts: " ++ String.intercalate ", " t.allowed_concepts,
            base ++ [("doc_type", "concepts")]⟩ : Chunk)], lo.2 + 1)
  let content := contentDocs base allowed.2 t.content_blocks
  (overview :: (lo.1 ++ allowed.1 ++ content.1), content.2)

/-- The topic loop of the chunk construction in `SmartQA.load_and_search`. -/
def createDocsAux : Nat → List Topic → List Chunk
  | _, [] => []
  | docId, t :: rest =>
    let r := topicDocs docId t
    r.1 ++ createDocsAux r.2 rest

/-- The document list built by `SmartQA.load_and_search` (lines 81-123 of `qa.py`). -/
def create_documents (data : List Topic) : List Chunk :=
  createDocsAux 0 data

end SmartQA

/-! ### Claim-side decomposition shapes

`claimTopicShape` transcribes the claimed per-topic emission order:
(1) topic overview, (2) learning objectives in order, (3) allowed-concepts
banner iff non-empty, (4) disallowed-concepts banner iff non-empty,
(5) non-blank content blocks in order.  `smartTopicShape` is the same order
with step (4) absent, which is what `SmartQA.load_and_search` implements. -/

/-- Per-topic (text, doc_type) sequence demanded by the claim for the indexer. -/
def claimTopicShape (t : Topic) : List (String × String) :=
  ("Topic: " ++ t.topic_name, "topic_overview") ::
    (t.learning_objectives.map
        (fun lo => ("Learning Objective: " ++ lo, "learning_objective")) ++
      (if t.allowed_concepts.isEmpty then []
       else [("Allowed concepts for " ++ t.topic_name ++ ": " ++
                String.intercalate ", " t.allowed_concepts, "allowed_concepts")]) ++
      (if t.disallowed_concepts.isEmpty then []
       else [("Disallowed concepts (too advanced): " ++
                String.intercalate ", " t.disallowed_concepts, "disallowed_concepts")]) ++
      (t.content_blocks.filter (fun b => !pyIsBlank b.text)).map
        (fun b => (b.text, "content_" ++ b.type)))

/-- Per-topic (text, doc_type) sequence of the `qa.py` indexer: same order but
no disallowed-concepts step. -/
def smartTopicShape (t : Topic) : List (String × String) :=
  ("Topic: " ++ t.topic_name, "topic") ::
    (t.learning_objectives.map
        (fun lo => ("Learning Objective: " ++ lo, "objective")) ++
      (if t.allowed_concepts.isEmpty then []
       else [("Concepts: " ++ String.intercalate ", " t.allowed_concepts, "concepts")]) ++
      (t.content_blocks.filter (fun b => !pyIsBlank b.text)).map
        (fun b => (b.text, "content_" ++ b.type)))

/-- Topic exhibiting the C2 counterexample: a non-empty `disallowed_concepts`
list for which the `qa.py` indexer emits no chunk at all beyond the overview. -/
def c2Topic : Topic :=
  { topic_id := "t1", topic_name := "Algebra", unit := none,
    learning_objectives := [], allowed_concepts := [],
    disallowed_concepts := ["calculus"], content_blocks := [] }

/-- The concrete topic of claim C3: 2 learning objectives, 3 allowed concepts,
0 disallowed concepts, 4 content blocks of which one is blank. -/
def c3Topic : Topic :=
  { topic_id := "t3", topic_name := "Fractions", unit := some "unit3",
    learning_objectives := ["Understand numerators", "Understand denominators"],
    allowed_concepts := ["fractions", "numerator", "denominator"],
    disallowed_concepts := [],
    content_blocks :=
      [⟨"b1", "definition", "A fraction represents a part of a whole."⟩,
       ⟨"b2", "example", "   "⟩,
       ⟨"b3", "explanation", "The numerator is written on top."⟩,
       ⟨"b4", "example", "Example: one half is 1/2."⟩] }

/-! ### Chapter router (`SmartQA.find_chapter`) -/

structure ChapterEntry where
  chapter_name : String
  json_file : String
  json_path : String
deriving DecidableEq

/-- A chapter index entry together with its similarity score, as produced by
the list comprehension in `SmartQA.find_chapter` (`{**chapter, 'similarity'}`
becomes the pair of the entry and the score). -/
structure ChapterSim where
  entry : ChapterEntry
  similarity : ℚ
deriving DecidableEq

/-- Comparison used to model `similarities.sort(key=..., reverse=True)`:
insertion sort with this relation is exactly the stable descending sort that
Python performs (equal keys keep their original relative order). -/
def simGE (a b : ChapterSim) : Prop := b.similarity ≤ a.similarity

instance : DecidableRel simGE := fun _ b => inferInstanceAs (Decidable (b.similarity ≤ _))

/-- `SmartQA.find_chapter`: score every chapter with the cosine-similarity
oracle `sim` (the embedding model and `np.dot`/`np.linalg.norm` are external
collaborators), stable-sort descending by similarity and take element 0.
Returns `none` on an empty index, where the Python code would raise. -/
def SmartQA.find_chapter (index : List ChapterEntry) (sim : ChapterEntry → ℚ) :
    Option ChapterSim :=
  (List.insertionSort simGE (index.map (fun ch => ⟨ch, sim ch⟩))).head?

/-- Claim-side selection rule: the first-encountered element of maximum
similarity (a later element replaces the current best only when strictly
greater). -/
def firstArgmax : List ChapterSim → Option ChapterSim
  | [] => none
  | a :: rest =>
    match firstArgmax rest with
    | none => some a
    | some m => if a.similarity < m.similarity then some m else some a

/-! ### Query engine (`DocumentQA.ask` and `SmartQA.load_and_search` results) -/

/-- One raw nearest-neighbour hit as reported by the chroma index for a query:
the document text, its metadata and its vector distance. -/
structure RawHit where
  doc : String
  meta : List (String × String)
  distance : ℚ
deriving DecidableEq

/-- One result item of `DocumentQA.ask`. -/
structure ResultItem where
  text : String
  metadata : List (String × String)
  relevance_score : ℚ
  distance : ℚ
deriving DecidableEq

/-- The `result_item` dict built for each kept hit in `DocumentQA.ask`. -/
def mkResultItem (h : RawHit) : ResultItem :=
  { text := h.doc, metadata := h.meta,
    relevance_score := 1 - h.distance, distance := h.distance }

/-- `n_results * 2 if topic_filter else n_results`: the candidate count
`DocumentQA.ask` requests from the index. -/
def DocumentQA.requestCount (n : Nat) (topic_filter : Option String) : Nat :=
  match topic_filter with
  | some _ => n * 2
  | none => n

/-- The result loop of `DocumentQA.ask`: skip hits failing the
case-insensitive topic filter, stop once `count` reaches `n_results`, attach
`relevance_score = 1 - distance` to every kept hit. -/
def DocumentQA.collectResults : Option String → Nat → Nat → List RawHit → List ResultItem
  | _, _, _, [] => []
  | some f, n, count, h :: rest =>
    if pyLower (pyGet h.meta "topic_name" "") != pyLower f then
      DocumentQA.collectResults (some f) n count rest
    else if n ≤ count then []
    else mkResultItem h :: DocumentQA.collectResults (some f) n (count + 1) rest
  | none, n, count, h :: rest =>
    if n ≤ count then []
    else mkResultItem h :: DocumentQA.collectResults none n (count + 1) rest

/-- The organized result dict of `DocumentQA.ask`. -/
structure Organized where
  question : String
  topic_overview : List ResultItem
  learning_objectives : List ResultItem
  allowed_concepts : List ResultItem
  disallowed_concepts : List ResultItem
  content_blocks : List ResultItem
  all_results : List ResultItem
deriving DecidableEq

/-- The `doc_type` tag used to categorize a result item. -/
def resultType (it : ResultItem) : String := pyGet it.metadata "doc_type" ""

/-- `DocumentQA.ask` (lines 193-258): request `requestCount` candidates from
the index oracle `query` (which also receives the `where` filter), run the
result loop, and categorize each kept item by its stored `doc_type`; every
kept item also lands in `all_results` in order. -/
def DocumentQA.ask (question : String) (n : Nat) (topic_filter : Option String)
    (query : Nat → Option String → List RawHit) : Organized :=
  let raw := query (DocumentQA.requestCount n topic_filter) topic_filter
  let all := DocumentQA.collectResults topic_filter n 0 raw
  { question := question
    topic_overview := all.filter (fun it => resultType it == "topic_overview")
    learning_objectives := all.filter (fun it => resultType it == "learning_objective")
    allowed_concepts := all.filter (fun it => resultType it == "allowed_concepts")
    disallowed_concepts := all.filter (fun it => resultType it == "disallowed_concepts")
    content_blocks := all.filter (fun it =>
      !(resultType it == "topic_overview" || resultType it == "learning_objective" ||
        resultType it == "allowed_concepts" || resultType it == "disallowed_concepts"))
    all_results := all }

/-- A result chunk of `SmartQA.load_and_search`: note `relevance` is
`round(1 - distance, 3)`. -/
structure SChunk where
  text : String
  type : String
  topic : String
  relevance : ℚ
deriving DecidableEq

/-- The result-assembly loop of `SmartQA.load_and_search` (lines 147-161). -/
def SmartQA.chunks (raw : List RawHit) : List SChunk :=
  raw.map (fun h =>
    { text := h.doc, type := pyGet h.meta "doc_type" "",
      topic := pyGet h.meta "topic_name" "", relevance := pyRound3 (1 - h.distance) })

/-! ### Context formatters -/

/-- Python `f"{q:.1%}"`: the value as a percentage with one decimal place. -/
def pct1 (q : ℚ) : String :=
  let m := roundHalfEven (q * 1000)
  let sign := if m < 0 then "-" else ""
  sign ++ toString (m.natAbs / 10) ++ "." ++ toString (m.natAbs % 10) ++ "%"

/-- `"=" * 70`. -/
def eqBar : String := String.mk (List.replicate 70 '=')

/-- `"-" * 70`. -/
def dashBar : String := String.mk (List.replicate 70 '-')

/-- The numbered content-block lines of `DocumentQA.format_for_llm`
(`enumerate(results["content_blocks"], 1)`). -/
def DocumentQA.contentLines : Nat → List ResultItem → List String
  | _, [] => []
  | i, item :: rest =>
    let doc_type := (pyGet item.metadata "doc_type" "").replace "content_" ""
    let topic_name := pyGet item.metadata "topic_name" "Unknown"
    let rel := pct1 item.relevance_score
    let header :=
      if doc_type == "definition" then
        "\n[DEFINITION #" ++ toString i ++ "] from topic \x27" ++ topic_name ++
          "\x27 (Relevance: " ++ rel ++ ")"
      else if doc_type == "explanation" then
        "\n[EXPLANATION #" ++ toString i ++ "] from topic \x27" ++ topic_name ++
          "\x27 (Relevance: " ++ rel ++ ")"
      else if doc_type == "example" then
        "\n[EXAMPLE #" ++ toString i ++ "] from topic \x27" ++ topic_name ++
          "\x27 (Relevance: " ++ rel ++ ")"
      else
        "\n[CONTENT #" ++ toString i ++ "] from topic \x27" ++ topic_name ++
          "\x27 (Relevance: " ++ rel ++ ")"
    header :: item.text :: DocumentQA.contentLines (i + 1) rest

/-- `DocumentQA.format_for_llm` (lines 260-353): renders the organized result
set into the textual context block.  `pdf_path` is the stored pdf file name
when present. -/
def DocumentQA.format_for_llm (pdf_path : Option String) (unit_name : String)
    (results : Organized) : String :=
  let pdf_name := pdf_path.getD (unit_name ++ ".pdf")
  let header : List String :=
    [eqBar, "CONTEXT FROM NCERT TEXTBOOK", eqBar,
     "\nSOURCE DOCUMENT: " ++ pdf_name,
     "UNIT/CHAPTER: " ++ unit_name,
     "\nNOTE: The following content has been extracted and structured from the",
     "      PDF textbook. It includes topics, learning objectives, concepts,",
     "      and actual content (definitions, explanations, examples) from the book.",
     "\n" ++ eqBar,
     "\nSTUDENT QUESTION: " ++ results.question,
     eqBar]
  let overview : List String :=
    if results.topic_overview.isEmpty then []
    else ["\n📚 TOPIC(S) FROM THE TEXTBOOK:", dashBar] ++
      results.topic_overview.map (fun item => "• " ++ item.text.replace "Topic: " "")
  let objectives : List String :=
    if results.learning_objectives.isEmpty then []
    else ["\n🎯 LEARNING OBJECTIVES (What students should learn):", dashBar] ++
      results.learning_objectives.map
        (fun item => "• " ++ item.text.replace "Learning Objective: " "")
  let allowed : List String :=
    if results.allowed_concepts.isEmpty then []
    else ["\n✅ CONCEPTS COVERED IN THIS CHAPTER (Age-appropriate):", dashBar] ++
      results.allowed_concepts.map (fun item =>
        "• " ++ (if pyContains item.text "Allowed concepts for" then
            (if pyContains item.text ": " then pySplitTail item.text ": " else item.text)
          else item.text))
  let disallowed : List String :=
    if results.disallowed_concepts.isEmpty then []
    else ["\n❌ ADVANCED CONCEPTS (NOT to be taught at this level):", dashBar] ++
      results.disallowed_concepts.map (fun item =>
        "• " ++ (if pyContains item.text "Disallowed concepts" then
            (if pyContains item.text ": " then pySplitTail item.text ": " else item.text)
          else item.text))
  let content : List String :=
    if results.content_blocks.isEmpty then []
    else ["\n📖 RELEVANT CONTENT FROM THE TEXTBOOK:", dashBar,
          "(This is the actual text extracted from the PDF)", ""] ++
      DocumentQA.contentLines 1 results.content_blocks
  let trailer : List String := ["\n" ++ eqBar, "END OF TEXTBOOK CONTEXT", eqBar]
  String.intercalate "\n" (header ++ overview ++ objectives ++ allowed ++ disallowed ++
    content ++ trailer)

/-- The numbered chunk lines of the context block of `SmartQA.ask`. -/
def SmartQA.contextLines : Nat → List SChunk → List String
  | _, [] => []
  | i, c :: rest =>
    ("\n[" ++ ((c.type.replace "content_" "").toUpper) ++ " #" ++ toString i ++
      "] (Relevance: " ++ pct1 c.relevance ++ ")") :: c.text ::
      SmartQA.contextLines (i + 1) rest

/-- The context-formatting block of `SmartQA.ask` (lines 185-203). -/
def SmartQA.context (chapter_name : String) (similarity : ℚ) (question : String)
    (chunks : List SChunk) : String :=
  String.intercalate "\n"
    ([eqBar, "CONTEXT FROM NCERT CLASS 7 MATHEMATICS", eqBar,
      "\nCHAPTER: " ++ chapter_name,
      "RELEVANCE: " ++ pct1 similarity,
      "\nQUESTION: " ++ question,
      "\n" ++ eqBar,
      "\nRELEVANT CONTENT:\n"] ++
      SmartQA.contextLines 1 chunks ++
      ["\n" ++ eqBar, "END OF CONTEXT", eqBar])

/-! ### Chatbot front end (`MathBuddyChatbot.get_response`) -/

/-- A chat-history message. -/
structure Msg where
  role : String
  content : String
deriving DecidableEq

/-- The result dict of `SmartQA.ask` as consumed by the chatbot. -/
structure AskResult where
  question : String
  chapter : String
  chapter_file : String
  chapter_relevance : ℚ
  chunks : List SChunk
  context : String
deriving DecidableEq

/-- Outcome of an external call guarded by `try`/`except`. -/
inductive Outcome (α : Type) where
  | ok : α → Outcome α
  | exn : String → Outcome α
deriving DecidableEq

/-- The response dict of `MathBuddyChatbot.get_response`: either the payload
`(answer, chapter, relevance, sources)` or the error dict. -/
inductive ChatResponse where
  | payload : String → String → ℚ → List SChunk → ChatResponse
  | error : String → ChatResponse
deriving DecidableEq

/-- The canned refusal answer of `MathBuddyChatbot.get_response`. -/
def refusalAnswer : String :=
  "I\x27m sorry, I couldn\x27t find any relevant information in the current curriculum to answer your question. I am strictly limited to the provided curriculum material."

/-- `MathBuddyChatbot.get_response` (lines 85-167): the retrieval call
(`SmartQA.ask` after query rewriting) and the LLM completion are oracle
outcomes; any exception in them is caught and becomes the error dict.
Returns the response together with the updated `chat_history`. -/
def MathBuddyChatbot.get_response (chat_history : List Msg) (user_question : String)
    (search : Outcome AskResult) (llm : Outcome String) : ChatResponse × List Msg :=
  match search with
  | .exn e => (.error e, chat_history)
  | .ok sr =>
    if sr.chapter_relevance < 45/100 then
      (.payload refusalAnswer "None" sr.chapter_relevance [], chat_history)
    else
      match llm with
      | .exn e => (.error e, chat_history)
      | .ok response =>
        (.payload response sr.chapter sr.chapter_relevance (sr.chunks.take 3),
         chat_history ++ [⟨"user", user_question⟩, ⟨"assistant", response⟩])

/-! ### Dynamic JSON semantics of the indexing step (for the error-handling claim)

`DocumentQA._load_json` performs no schema validation: it wraps a dict into a
one-element list and returns anything else unchanged, so `_create_documents`
then operates on arbitrary dynamic values.  The model below follows Python
semantics at the operations the code performs: `.get` (dict only), iteration,
truthiness, `", ".join`, `.strip()`. -/

/-- Dynamic JSON values as produced by `json.load`. -/
inductive Json where
  | null : Json
  | bool : Bool → Json
  | num : ℚ → Json
  | str : String → Json
  | arr : List Json → Json
  | obj : List (String × Json) → Json

/-- Python runtime errors the indexing code can raise, plus the dedicated
`DataFormatError` the spec posits.  Modelled from the spec: no class named
`DataFormatError` exists anywhere in the repository source; the constructor
is present only so that the claim about it can be stated. -/
inductive PyError where
  | typeError : String → PyError
  | attributeError : String → PyError
  | dataFormatError : PyError
deriving DecidableEq

mutual

/-- Python `str()` of a JSON value, as interpolated by f-strings (container
rendering is approximate; no claim depends on it). -/
def pyStr : Json → String
  | Json.null => "None"
  | Json.bool true => "True"
  | Json.bool false => "False"
  | Json.num q => toString q
  | Json.str s => s
  | Json.arr l => "[" ++ pyStrElems l ++ "]"
  | Json.obj l => "\x7b" ++ pyStrFields l ++ "\x7d"

def pyStrElems : List Json → String
  | [] => ""
  | [x] => pyStr x
  | x :: y :: rest => pyStr x ++ ", " ++ pyStrElems (y :: rest)

def pyStrFields : List (String × Json) → String
  | [] => ""
  | [kv] => kv.1 ++ ": " ++ pyStr kv.2
  | kv :: kv2 :: rest => kv.1 ++ ": " ++ pyStr kv.2 ++ ", " ++ pyStrFields (kv2 :: rest)

end

/-- Python iteration `for x in j`: lists yield elements, strings yield
1-character strings, dicts yield their keys; other values raise TypeError. -/
def pyIterDyn : Json → Except PyError (List Json)
  | Json.arr l => .ok l
  | Json.str s => .ok (s.data.map (fun c => Json.str (String.mk [c])))
  | Json.obj l => .ok (l.map (fun kv => Json.str kv.1))
  | Json.null => .error (PyError.typeError "NoneType object is not iterable")
  | Json.bool _ => .error (PyError.typeError "bool object is not iterable")
  | Json.num _ => .error (PyError.typeError "number object is not iterable")

/-- Python truthiness. -/
def pyTruthy : Json → Bool
  | Json.null => false
  | Json.bool b => b
  | Json.num q => q != 0
  | Json.str s => s != ""
  | Json.arr l => !l.isEmpty
  | Json.obj l => !l.isEmpty

/-- `dict.get(k, d)` on a JSON object (for duplicate keys the last wins, as in
`json.load`). -/
def pyGetJ (fields : List (String × Json)) (k : String) (d : Json) : Json :=
  match fields.reverse.find? (fun kv => kv.1 == k) with
  | some kv => kv.2
  | none => d

/-- The element check of `str.join`: every item must be a string. -/
def pyStrList : List Json → Except PyError (List String)
  | [] => .ok []
  | Json.str s :: rest => (pyStrList rest).map (fun l => s :: l)
  | _ :: _ => .error (PyError.typeError "sequence item: expected str instance")

/-- `sep.join(j)` over a dynamic value. -/
def pyJoin (sep : String) (j : Json) : Except PyError String :=
  match pyIterDyn j with
  | .error e => .error e
  | .ok items =>
    match pyStrList items with
    | .error e => .error e
    | .ok strs => .ok (String.intercalate sep strs)

/-- A chunk whose metadata holds raw JSON values (dynamic model). -/
structure DynChunk where
  id : String
  text : String
  metadata : List (String × Json)

/-- The learning-objective loop over dynamic values (f-strings cannot raise). -/
def dynLoDocs (base : List (String × Json)) : Nat → List Json → List DynChunk × Nat
  | docId, [] => ([], docId)
  | docId, lo :: rest =>
    let r := dynLoDocs base (docId + 1) rest
    (⟨toString docId, "Learning Objective: " ++ pyStr lo,
      base ++ [("doc_type", Json.str "learning_objective")]⟩ :: r.1, r.2)

/-- `block_text.strip()`: defined only on strings, AttributeError otherwise. -/
def pyStripOk : Json → Except PyError String
  | Json.str s => .ok s
  | Json.null => .error (PyError.attributeError "object has no attribute strip")
  | Json.bool _ => .error (PyError.attributeError "object has no attribute strip")
  | Json.num _ => .error (PyError.attributeError "object has no attribute strip")
  | Json.arr _ => .error (PyError.attributeError "object has no attribute strip")
  | Json.obj _ => .error (PyError.attributeError "object has no attribute strip")

/-- The content-block loop over dynamic values: `block.get` requires a dict
and `.strip()` requires a string. -/
def dynContentDocs (base : List (String × Json)) :
    Nat → List Json → Except PyError (List DynChunk × Nat)
  | docId, [] => .ok ([], docId)
  | docId, Json.obj bf :: rest =>
    (match pyStripOk (pyGetJ bf "text" (Json.str "")) with
     | .error e => .error e
     | .ok s =>
       if pyIsBlank s then dynContentDocs base docId rest
       else
         match dynContentDocs base (docId + 1) rest with
         | .error e => .error e
         | .ok r =>
           .ok (⟨toString docId, s,
             base ++ [("doc_type",
                 Json.str ("content_" ++ pyStr (pyGetJ bf "type" (Json.str "unknown")))),
               ("block_id", pyGetJ bf "block_id" (Json.str ""))]⟩ :: r.1, r.2))
  | _, Json.null :: _ => .error (PyError.attributeError "object has no attribute get")
  | _, Json.bool _ :: _ => .error (PyError.attributeError "object has no attribute get")
  | _, Json.num _ :: _ => .error (PyError.attributeError "object has no attribute get")
  | _, Json.str _ :: _ => .error (PyError.attributeError "object has no attribute get")
  | _, Json.arr _ :: _ => .error (PyError.attributeError "object has no attribute get")

/-- The `base_metadata` dict over dynamic values. -/
def dynBase (source_file unit_name : String) (fields : List (String × Json)) :
    List (String × Json) :=
  [("unit", pyGetJ fields "unit" (Json.str unit_name)),
   ("topic_id", pyGetJ fields "topic_id" (Json.str "")),
   ("topic_name", pyGetJ fields "topic_name" (Json.str "")),
   ("source_file", Json.str source_file)]

/-- The allowed/disallowed-concepts step over a dynamic value: emit one banner
chunk when the value is truthy (joining it, which may raise), none otherwise. -/
def dynConcepts (head doc_type : String) (base : List (String × Json)) (d : Nat)
    (jv : Json) : Except PyError (List DynChunk × Nat) :=
  if pyTruthy jv then
    match pyJoin ", " jv with
    | .error e => .error e
    | .ok joined =>
      .ok ([⟨toString d, head ++ joined, base ++ [("doc_type", Json.str doc_type)]⟩], d + 1)
  else .ok ([], d)

/-- One topic iteration of `DocumentQA._create_documents` over dynamic JSON:
`.get` requires a dict; iteration and the concept joins raise exactly where
Python would. -/
def dynTopicDocs (source_file unit_name : String) (docId : Nat) :
    Json → Except PyError (List DynChunk × Nat)
  | Json.obj fields =>
    (match pyIterDyn (pyGetJ fields "learning_objectives" (Json.arr [])) with
     | .error e => .error e
     | .ok los =>
       match dynConcepts
           ("Allowed concepts for " ++ pyStr (pyGetJ fields "topic_name" (Json.str "")) ++
             ": ")
           "allowed_concepts" (dynBase source_file unit_name fields)
           (dynLoDocs (dynBase source_file unit_name fields) (docId + 1) los).2
           (pyGetJ fields "allowed_concepts" (Json.arr [])) with
       | .error e => .error e
       | .ok aPair =>
         match dynConcepts "Disallowed concepts (too advanced): " "disallowed_concepts"
             (dynBase source_file unit_name fields) aPair.2
             (pyGetJ fields "disallowed_concepts" (Json.arr [])) with
         | .error e => .error e
         | .ok dPair =>
           match pyIterDyn (pyGetJ fields "content_blocks" (Json.arr [])) with
           | .error e => .error e
           | .ok blocks =>
             match dynContentDocs (dynBase source_file unit_name fields) dPair.2 blocks with
             | .error e => .error e
             | .ok content =>
               .ok ((⟨toString docId,
                     "Topic: " ++ pyStr (pyGetJ fields "topic_name" (Json.str "")),
                     dynBase source_file unit_name fields ++
                       [("doc_type", Json.str "topic_overview")]⟩ : DynChunk) ::
                   ((dynLoDocs (dynBase source_file unit_name fields) (docId + 1) los).1 ++
                     aPair.1 ++ dPair.1 ++ content.1), content.2))
  | Json.null => .error (PyError.attributeError "object has no attribute get")
  | Json.bool _ => .error (PyError.attributeError "object has no attribute get")
  | Json.num _ => .error (PyError.attributeError "object has no attribute get")
  | Json.str _ => .error (PyError.attributeError "object has no attribute get")
  | Json.arr _ => .error (PyError.attributeError "object has no attribute get")

/-- The topic loop of `DocumentQA._create_documents` over dynamic values. -/
def dynTopicsDocs (source_file unit_name : String) :
    Nat → List Json → Except PyError (List DynChunk)
  | _, [] => .ok []
  | docId, t :: rest =>
    match dynTopicDocs source_file unit_name docId t with
    | .error e => .error e
    | .ok r =>
      match dynTopicsDocs source_file unit_name r.2 rest with
      | .error e => .error e
      | .ok more => .ok (r.1 ++ more)

/-- The shape normalization of `DocumentQA._load_json`: a dict is wrapped into
a one-element list; everything else is returned unchanged, unvalidated. -/
def dynLoadNormalize : Json → Json
  | Json.obj fields => Json.arr [Json.obj fields]
  | j => j

/-- `DocumentQA._load_json` followed by `_create_documents` on an arbitrary
parsed JSON value: the dynamic semantics of the indexing step that precedes
any vector search. -/
def dynCreateDocuments (source_file unit_name : String) (data : Json) :
    Except PyError (List DynChunk) :=
  match pyIterDyn (dynLoadNormalize data) with
  | .error e => .error e
  | .ok topics => dynTopicsDocs source_file unit_name 0 topics

/-! ### Decomposition lemmas -/

lemma docBase_doc_type (u ti tn sf x d : String) :
    pyGet (DocumentQA.baseMetadata u ti tn sf ++ [("doc_type", x)]) "doc_type" d = x := rfl

lemma docBase_doc_type_block (u ti tn sf x y d : String) :
    pyGet (DocumentQA.baseMetadata u ti tn sf ++ [("doc_type", x), ("block_id", y)])
      "doc_type" d = x := rfl

lemma smartBase_doc_type (tn x d : String) :
    pyGet ([("topic_name", tn)] ++ [("doc_type", x)]) "doc_type" d = x := rfl

lemma smartBase_doc_type' (tn x d : String) :
    pyGet [("topic_name", tn), ("doc_type", x)] "doc_type" d = x := rfl

lemma docLoDocs_map (u ti tn sf : String) (docId : Nat) (los : List String) :
    ((DocumentQA.loDocs (DocumentQA.baseMetadata u ti tn sf) docId los).1).map chunkShape
      = los.map (fun lo => ("Learning Objective: " ++ lo, "learning_objective")) := by
  induction los generalizing docId with
  | nil => rfl
  | cons lo rest ih =>
    simp only [DocumentQA.loDocs, List.map_cons, chunkShape, docBase_doc_type, ih]

lemma docContentDocs_map (u ti tn sf : String) (docId : Nat)
    (bs : List ContentBlock) :
    ((DocumentQA.contentDocs (DocumentQA.baseMetadata u ti tn sf) docId bs).1).map chunkShape
      = (bs.filter (fun b => !pyIsBlank b.text)).map
          (fun b => (b.text, "content_" ++ b.type)) := by
  induction bs generalizing docId with
  | nil => rfl
  | cons b rest ih =>
    cases hb : pyIsBlank b.text with
    | true => simp [DocumentQA.contentDocs, hb, ih, List.filter_cons]
    | false => simp [DocumentQA.contentDocs, hb, ih, chunkShape,
        docBase_doc_type_block, List.filter_cons]

lemma docTopicDocs_map (sf un : String) (docId : Nat) (t : Topic) :
    ((DocumentQA.topicDocs sf un docId t).1).map chunkShape = claimTopicShape t := by
  unfold DocumentQA.topicDocs claimTopicShape
  cases ha : t.allowed_concepts.isEmpty <;> cases hd : t.disallowed_concepts.isEmpty <;>
    simp [ha, hd, docLoDocs_map, docContentDocs_map, chunkShape,
      docBase_doc_type]

lemma docCreateDocsAux_map (sf un : String) (docId : Nat) (data : List Topic) :
    (DocumentQA.createDocsAux sf un docId data).map chunkShape
      = (data.map claimTopicShape).flatten := by
  induction data generalizing docId with
  | nil => rfl
  | cons t rest ih =>
    simp only [DocumentQA.createDocsAux, List.map_append, docTopicDocs_map, ih,
      List.map_cons, List.flatten_cons]

lemma smartLoDocs_map (tn : String) (docId : Nat) (los : List String) :
    ((SmartQA.loDocs [("topic_name", tn)] docId los).1).map chunkShape
      = los.map (fun lo => ("Learning Objective: " ++ lo, "objective")) := by
  induction los generalizing docId with
  | nil => rfl
  | cons lo rest ih =>
    simp only [SmartQA.loDocs, List.map_cons, chunkShape, smartBase_doc_type, ih]

lemma smartContentDocs_map (tn : String) (docId : Nat) (bs : List ContentBlock) :
    ((SmartQA.contentDocs [("topic_name", tn)] docId bs).1).map chunkShape
      = (bs.filter (fun b => !pyIsBlank b.text)).map
          (fun b => (b.text, "content_" ++ b.type)) := by
  induction bs generalizing docId with
  | nil => rfl
  | cons b rest ih =>
    cases hb : pyIsBlank b.text with
    | true => simp [SmartQA.contentDocs, hb, ih, List.filter_cons]
    | false => simp [SmartQA.contentDocs, hb, ih, chunkShape,
        smartBase_doc_type, smartBase_doc_type', List.filter_cons]

lemma smartTopicDocs_map (docId : Nat) (t : Topic) :
    ((SmartQA.topicDocs docId t).1).map chunkShape = smartTopicShape t := by
  unfold SmartQA.topicDocs smartTopicShape
  cases ha : t.allowed_concepts.isEmpty <;>
    simp [ha, smartLoDocs_map, smartContentDocs_map, chunkShape, smartBase_doc_type,
      smartBase_doc_type']

lemma smartCreateDocsAux_map (docId : Nat) (data : List Topic) :
    (SmartQA.createDocsAux docId data).map chunkShape = (data.map smartTopicShape).flatten := by
  induction data generalizing docId with
  | nil => rfl
  | cons t rest ih =>
    simp only [SmartQA.createDocsAux, List.map_append, smartTopicDocs_map, ih,
      List.map_cons, List.flatten_cons]

/-! ### Blankness of emitted chunks -/

lemma pyIsBlank_append_left (a b : String) (h : pyIsBlank a = false) :
    pyIsBlank (a ++ b) = false := by
  simp only [pyIsBlank, String.data_append, List.all_append, Bool.and_eq_false_iff]
  exact Or.inl h

lemma claimTopicShape_text_nonblank (t : Topic) (p : String × String)
    (hp : p ∈ claimTopicShape t) : pyIsBlank p.1 = false := by
  unfold claimTopicShape at hp
  rcases List.mem_cons.1 hp with hov | hrest
  · subst hov
    exact pyIsBlank_append_left _ _ rfl
  · rcases List.mem_append.1 hrest with hx | hcontent
    · rcases List.mem_append.1 hx with hy | hdis
      · rcases List.mem_append.1 hy with hlo | hallow
        · rcases List.mem_map.1 hlo with ⟨lo, _, rfl⟩
          exact pyIsBlank_append_left _ _ rfl
        · cases h : t.allowed_concepts.isEmpty with
          | true => simp [h] at hallow
          | false =>
            simp [h] at hallow
            rcases hallow with ⟨-, rfl⟩
            exact pyIsBlank_append_left _ _
              (pyIsBlank_append_left _ _ (pyIsBlank_append_left _ _ rfl))
      · cases h : t.disallowed_concepts.isEmpty with
        | true => simp [h] at hdis
        | false =>
          simp [h] at hdis
          rcases hdis with ⟨-, rfl⟩
          exact pyIsBlank_append_left _ _ rfl
    · rcases List.mem_map.1 hcontent with ⟨b, hb, rfl⟩
      have := (List.mem_filter.1 hb).2
      simpa using this

lemma smartTopicShape_text_nonblank (t : Topic) (p : String × String)
    (hp : p ∈ smartTopicShape t) : pyIsBlank p.1 = false := by
  unfold smartTopicShape at hp
  rcases List.mem_cons.1 hp with hov | hrest
  · subst hov
    exact pyIsBlank_append_left _ _ rfl
  · rcases List.mem_append.1 hrest with hx | hcontent
    · rcases List.mem_append.1 hx with hlo | hallow
      · rcases List.mem_map.1 hlo with ⟨lo, _, rfl⟩
        exact pyIsBlank_append_left _ _ rfl
      · cases h : t.allowed_concepts.isEmpty with
        | true => simp [h] at hallow
        | false =>
          simp [h] at hallow
          rcases hallow with ⟨-, rfl⟩
          exact pyIsBlank_append_left _ _ rfl
    · rcases List.mem_map.1 hcontent with ⟨b, hb, rfl⟩
      have := (List.mem_filter.1 hb).2
      simpa using this

/-! ### Claims C2, C3, C7 -/

/-- C2 counterexample: for a topic whose `disallowed_concepts` is the non-empty
list `["calculus"]`, the indexer of `SmartQA.load_and_search` emits only the
topic-overview chunk — no disallowed-concepts chunk is ever created, so the
claimed step (4) fails for this cited indexer. -/
theorem c2_smartqa_drops_disallowed :
    (SmartQA.create_documents [c2Topic]).map chunkShape = [("Topic: Algebra", "topic")]
      ∧ c2Topic.disallowed_concepts = ["calculus"] := by
  exact ⟨rfl, rfl⟩

/-- C2 (amended): `DocumentQA._create_documents` emits, for every parsed
document and every topic in order, exactly the claimed sequence — (1) one
topic-overview chunk, (2) one chunk per learning objective in order, (3) one
allowed-concepts chunk iff `allowed_concepts` is non-empty, (4) one
disallowed-concepts chunk iff `disallowed_concepts` is non-empty, (5) one
chunk per non-blank content block in order; the `SmartQA.load_and_search`
indexer emits the same sequence except that step (4) is absent (it never
emits a disallowed-concepts chunk). -/
theorem c2_decomposition_order (sf un : String) (data : List Topic) :
    (DocumentQA.create_documents sf un data).map chunkShape
        = (data.map claimTopicShape).flatten
      ∧ (SmartQA.create_documents data).map chunkShape
        = (data.map smartTopicShape).flatten := by
  exact ⟨docCreateDocsAux_map sf un 0 data, smartCreateDocsAux_map 0 data⟩

/-- C3: on the topic with 2 objectives, 3 allowed concepts, 0 disallowed
concepts and 4 content blocks (1 blank), the indexer produces exactly 7
chunks: 1 overview, 2 objectives, 1 allowed-concepts banner, 0
disallowed-concepts banners and 3 content chunks.  This holds for both
indexers in the repository. -/
theorem c3_chunk_count :
    (DocumentQA.create_documents "f.json" "unit3" [c3Topic]).length = 7
      ∧ (SmartQA.create_documents [c3Topic]).length = 7
      ∧ ((DocumentQA.create_documents "f.json" "unit3" [c3Topic]).map chunkShape).countP
          (fun p => p.2 == "topic_overview") = 1
      ∧ ((DocumentQA.create_documents "f.json" "unit3" [c3Topic]).map chunkShape).countP
          (fun p => p.2 == "learning_objective") = 2
      ∧ ((DocumentQA.create_documents "f.json" "unit3" [c3Topic]).map chunkShape).countP
          (fun p => p.2 == "allowed_concepts") = 1
      ∧ ((DocumentQA.create_documents "f.json" "unit3" [c3Topic]).map chunkShape).countP
          (fun p => p.2 == "disallowed_concepts") = 0
      ∧ ((DocumentQA.create_documents "f.json" "unit3" [c3Topic]).map chunkShape).countP
          (fun p => !(p.2 == "topic_overview" || p.2 == "learning_objective" ||
            p.2 == "allowed_concepts" || p.2 == "disallowed_concepts")) = 3 := by
  exact ⟨rfl, rfl, rfl, rfl, rfl, rfl, rfl⟩

/-- C7: every chunk created by either indexer has text that is not empty and
not whitespace-only: banner chunks carry a non-blank literal text and
content-block chunks are created only from non-blank block text. -/
theorem c7_no_blank_chunks (sf un : String) (data : List Topic) (c : Chunk) :
    (c ∈ DocumentQA.create_documents sf un data → pyIsBlank c.text = false)
      ∧ (c ∈ SmartQA.create_documents data → pyIsBlank c.text = false) := by
  constructor
  · intro hc
    have h1 : chunkShape c ∈ (DocumentQA.create_documents sf un data).map chunkShape :=
      List.mem_map_of_mem chunkShape hc
    rw [DocumentQA.create_documents, docCreateDocsAux_map] at h1
    rcases List.mem_flatten.1 h1 with ⟨l, hl, hp⟩
    rcases List.mem_map.1 hl with ⟨t, _, rfl⟩
    exact claimTopicShape_text_nonblank t _ hp
  · intro hc
    have h1 : chunkShape c ∈ (SmartQA.create_documents data).map chunkShape :=
      List.mem_map_of_mem chunkShape hc
    rw [SmartQA.create_documents, smartCreateDocsAux_map] at h1
    rcases List.mem_flatten.1 h1 with ⟨l, hl, hp⟩
    rcases List.mem_map.1 hl with ⟨t, _, rfl⟩
    exact smartTopicShape_text_nonblank t _ hp

/-- Witness for C7 at a concrete document and chunk. -/
theorem c7_no_blank_chunks_witness :
    pyIsBlank (Chunk.text ⟨"0", "Topic: T",
      DocumentQA.baseMetadata "u" "" "T" "s" ++ [("doc_type", "topic_overview")]⟩) = false :=
  (c7_no_blank_chunks "s" "u" [⟨"", "T", none, [], [], [], []⟩] _).1 (by decide)

/-! ### Claims C1 and C10 -/

/-- C1: whenever the chapter-level relevance score is strictly below 0.45,
`MathBuddyChatbot.get_response` returns the refusal payload — the canned
refusal answer, chapter "None", the numeric relevance and an empty sources
list — independently of what the LLM oracle would return (no generative
answer is produced); whenever the score is at or above 0.45 it proceeds to
the full answer path, returning the LLM response with the routed chapter and
the top-3 chunks as sources. -/
theorem c1_threshold_gating (hist : List Msg) (q : String) (sr : AskResult) :
    (sr.chapter_relevance < 45/100 →
      ∀ llm : Outcome String,
        (MathBuddyChatbot.get_response hist q (Outcome.ok sr) llm).1
          = ChatResponse.payload refusalAnswer "None" sr.chapter_relevance [])
    ∧ (45/100 ≤ sr.chapter_relevance →
      ∀ response : String,
        (MathBuddyChatbot.get_response hist q (Outcome.ok sr) (Outcome.ok response)).1
          = ChatResponse.payload response sr.chapter sr.chapter_relevance
              (sr.chunks.take 3)) := by
  constructor
  · intro h llm
    simp [MathBuddyChatbot.get_response, h]
  · intro h response
    simp [MathBuddyChatbot.get_response, not_lt.2 h]

/-- Witness for C1 at the boundary scores 0.44 (refuses) and 0.46 (answers). -/
theorem c1_threshold_gating_witness :
    (MathBuddyChatbot.get_response [] "q"
        (Outcome.ok ⟨"q", "Fractions", "f.json", 44/100, [], "ctx"⟩)
        (Outcome.ok "generated")).1
      = ChatResponse.payload refusalAnswer "None" (44/100) []
    ∧ (MathBuddyChatbot.get_response [] "q"
        (Outcome.ok ⟨"q", "Fractions", "f.json", 46/100, [], "ctx"⟩)
        (Outcome.ok "generated")).1
      = ChatResponse.payload "generated" "Fractions" (46/100) [] := by
  constructor
  · exact (c1_threshold_gating [] "q" ⟨"q", "Fractions", "f.json", 44/100, [], "ctx"⟩).1
      (by norm_num) (Outcome.ok "generated")
  · simpa using (c1_threshold_gating [] "q"
      ⟨"q", "Fractions", "f.json", 46/100, [], "ctx"⟩).2 (by norm_num) "generated"

/-- C10: `MathBuddyChatbot.get_response` leaves the chat history unchanged on
the retrieval-error path, on the refusal path (relevance below 0.45) and on
the LLM-error path; only on the successful answer path are exactly two
entries appended, in order the original user question and then the generated
assistant response. -/
theorem c10_history_frame (hist : List Msg) (q : String) :
    (∀ e llm, (MathBuddyChatbot.get_response hist q (Outcome.exn e) llm).2 = hist)
    ∧ (∀ sr : AskResult, sr.chapter_relevance < 45/100 →
        ∀ llm, (MathBuddyChatbot.get_response hist q (Outcome.ok sr) llm).2 = hist)
    ∧ (∀ sr : AskResult, ∀ e,
        (MathBuddyChatbot.get_response hist q (Outcome.ok sr) (Outcome.exn e)).2 = hist)
    ∧ (∀ sr : AskResult, 45/100 ≤ sr.chapter_relevance → ∀ response,
        (MathBuddyChatbot.get_response hist q (Outcome.ok sr) (Outcome.ok response)).2
          = hist ++ [⟨"user", q⟩, ⟨"assistant", response⟩]) := by
  refine ⟨fun e llm => rfl, fun sr h llm => ?_, fun sr e => ?_, fun sr h response => ?_⟩
  · simp [MathBuddyChatbot.get_response, h]
  · by_cases h : sr.chapter_relevance < 45/100 <;>
      simp [MathBuddyChatbot.get_response, h]
  · simp [MathBuddyChatbot.get_response, not_lt.2 h]

/-- Witness for C10: refusal path keeps the empty history; answer path appends
the question and the answer. -/
theorem c10_history_frame_witness :
    (MathBuddyChatbot.get_response [] "q"
        (Outcome.ok ⟨"q", "Ch", "f", 44/100, [], "c"⟩) (Outcome.ok "a")).2 = ([] : List Msg)
    ∧ (MathBuddyChatbot.get_response [] "q"
        (Outcome.ok ⟨"q", "Ch", "f", 46/100, [], "c"⟩) (Outcome.ok "a")).2
      = [⟨"user", "q"⟩, ⟨"assistant", "a"⟩] := by
  constructor
  · exact (c10_history_frame [] "q").2.1 ⟨"q", "Ch", "f", 44/100, [], "c"⟩
      (by norm_num) (Outcome.ok "a")
  · simpa using (c10_history_frame [] "q").2.2.2 ⟨"q", "Ch", "f", 46/100, [], "c"⟩
      (by norm_num) "a"

/-! ### Claim C4: chapter routing -/

lemma head?_orderedInsert_nil (a : ChapterSim) :
    (List.orderedInsert simGE a []).head? = some a := rfl

lemma head?_orderedInsert_cons (a b : ChapterSim) (t : List ChapterSim) :
    (List.orderedInsert simGE a (b :: t)).head?
      = some (if simGE a b then a else b) := by
  by_cases h : simGE a b
  · simp [List.orderedInsert, h]
  · simp [List.orderedInsert, h]

/-- The head of the stable descending sort is the first-encountered maximum. -/
lemma head?_insertionSort_eq_firstArgmax (l : List ChapterSim) :
    (List.insertionSort simGE l).head? = firstArgmax l := by
  induction l with
  | nil => rfl
  | cons a t ih =>
    rw [List.insertionSort]
    cases hs : List.insertionSort simGE t with
    | nil =>
      have ht : t = [] := by
        have hperm := List.perm_insertionSort simGE t
        rw [hs] at hperm
        exact hperm.symm.eq_nil
      subst ht
      rfl
    | cons b s =>
      rw [head?_orderedInsert_cons]
      rw [hs] at ih
      simp only [List.head?] at ih
      rw [firstArgmax, ← ih]
      by_cases h : simGE a b
      · rw [if_pos h]
        show some a = if a.similarity < b.similarity then some b else some a
        rw [if_neg (not_lt.2 h)]
      · rw [if_neg h]
        show some b = if a.similarity < b.similarity then some b else some a
        rw [if_pos (not_le.1 h)]

/-- Positional characterization of `firstArgmax`: it returns an element that
is maximal, and every earlier element is strictly smaller. -/
lemma firstArgmax_spec (l : List ChapterSim) (hl : l ≠ []) :
    ∃ i, ∃ h : i < l.length,
      firstArgmax l = some (l.get ⟨i, h⟩)
        ∧ (∀ j, ∀ hj : j < l.length,
            (l.get ⟨j, hj⟩).similarity ≤ (l.get ⟨i, h⟩).similarity)
        ∧ (∀ j, ∀ hj : j < l.length, j < i →
            (l.get ⟨j, hj⟩).similarity < (l.get ⟨i, h⟩).similarity) := by
  induction l with
  | nil => exact absurd rfl hl
  | cons a t ih =>
    by_cases hT : t = []
    · subst hT
      refine ⟨0, by simp, rfl, ?_, ?_⟩
      · intro j hj
        have : j = 0 := by simpa using Nat.lt_one_iff.1 hj
        subst this
        exact le_refl _
      · intro j hj hji
        exact absurd hji (Nat.not_lt_zero j)
    · obtain ⟨i, hi, heq, hmax, hstrict⟩ := ih hT
      by_cases hlt : a.similarity < (t.get ⟨i, hi⟩).similarity
      · refine ⟨i + 1, Nat.succ_lt_succ hi, ?_, ?_, ?_⟩
        · simp only [firstArgmax, heq]
          rw [if_pos hlt]
          simp
        · intro j hj
          cases j with
          | zero => simpa using le_of_lt hlt
          | succ k => simpa using hmax k (Nat.lt_of_succ_lt_succ hj)
        · intro j hj hji
          cases j with
          | zero => simpa using hlt
          | succ k =>
            simpa using hstrict k (Nat.lt_of_succ_lt_succ hj) (Nat.lt_of_succ_lt_succ hji)
      · refine ⟨0, Nat.succ_pos _, ?_, ?_, ?_⟩
        · simp only [firstArgmax, heq]
          rw [if_neg hlt]
          simp
        · intro j hj
          cases j with
          | zero => simp
          | succ k =>
            have h1 := hmax k (Nat.lt_of_succ_lt_succ hj)
            have h2 : (t.get ⟨i, hi⟩).similarity ≤ a.similarity := not_lt.1 hlt
            simpa using le_trans h1 h2
        · intro j hj hji
          exact absurd hji (Nat.not_lt_zero j)

/-- C4: on a non-empty chapter index, `SmartQA.find_chapter` returns the
chapter whose cached embedding attains the maximum similarity with the
question (as scored by the cosine-similarity oracle `sim`), and when several
chapters tie at the maximum the first one in index order is returned: the
result sits at an index `i` whose score dominates every entry and strictly
dominates every earlier entry.  Stated over a cons cell, i.e. for every
non-empty index. -/
theorem c4_chapter_router (ch : ChapterEntry) (rest : List ChapterEntry)
    (sim : ChapterEntry → ℚ) :
    ∃ i, ∃ h : i < (ch :: rest).length,
      SmartQA.find_chapter (ch :: rest) sim
          = some ⟨(ch :: rest).get ⟨i, h⟩, sim ((ch :: rest).get ⟨i, h⟩)⟩
        ∧ (∀ j, ∀ hj : j < (ch :: rest).length,
            sim ((ch :: rest).get ⟨j, hj⟩) ≤ sim ((ch :: rest).get ⟨i, h⟩))
        ∧ (∀ j, ∀ hj : j < (ch :: rest).length, j < i →
            sim ((ch :: rest).get ⟨j, hj⟩) < sim ((ch :: rest).get ⟨i, h⟩)) := by
  set idx := ch :: rest with hidx
  set l := idx.map (fun c => (⟨c, sim c⟩ : ChapterSim)) with hldef
  have hlne : l ≠ [] := by simp [hldef, hidx]
  obtain ⟨i, hi, heq, hmax, hstrict⟩ := firstArgmax_spec l hlne
  have hlen : l.length = idx.length := by simp [hldef]
  have hget : ∀ j, ∀ hj : j < l.length,
      l.get ⟨j, hj⟩ = ⟨idx.get ⟨j, hlen ▸ hj⟩, sim (idx.get ⟨j, hlen ▸ hj⟩)⟩ := by
    intro j hj
    simp [hldef]
  refine ⟨i, hlen ▸ hi, ?_, ?_, ?_⟩
  · rw [SmartQA.find_chapter, head?_insertionSort_eq_firstArgmax, ← hldef, heq, hget i hi]
  · intro j hj
    have := hmax j (hlen ▸ hj)
    rw [hget j (hlen ▸ hj), hget i hi] at this
    exact this
  · intro j hj hji
    have := hstrict j (hlen ▸ hj) hji
    rw [hget j (hlen ▸ hj), hget i hi] at this
    exact this

/-! ### Claim C5: relevance scores -/

lemma abs_roundHalfEven_sub_le (x : ℚ) : |(roundHalfEven x : ℚ) - x| ≤ 1/2 := by
  unfold roundHalfEven
  have h1 : ((⌊x⌋ : ℚ)) ≤ x := Int.floor_le x
  have h2 : x < (⌊x⌋ : ℚ) + 1 := Int.lt_floor_add_one x
  by_cases hc1 : x - (⌊x⌋ : ℚ) < 1/2
  · rw [if_pos hc1, abs_le]
    constructor <;> linarith
  · rw [if_neg hc1]
    by_cases hc2 : (1:ℚ)/2 < x - (⌊x⌋ : ℚ)
    · rw [if_pos hc2]
      push_cast
      rw [abs_le]
      constructor <;> linarith
    · rw [if_neg hc2]
      by_cases he : ⌊x⌋ % 2 = 0
      · rw [if_pos he, abs_le]
        constructor <;> linarith
      · rw [if_neg he]
        push_cast
        rw [abs_le]
        constructor <;> linarith

lemma abs_pyRound3_sub_le (q : ℚ) : |pyRound3 q - q| ≤ 1/2000 := by
  have h := abs_roundHalfEven_sub_le (q * 1000)
  unfold pyRound3
  have heq : (roundHalfEven (q * 1000) : ℚ) / 1000 - q
      = ((roundHalfEven (q * 1000) : ℚ) - q * 1000) / 1000 := by ring
  rw [heq, abs_div, abs_of_pos (show (0:ℚ) < 1000 by norm_num)]
  linarith

lemma collectResults_relevance (tf : Option String) (n : Nat) (raw : List RawHit) :
    ∀ count item, item ∈ DocumentQA.collectResults tf n count raw →
      item.relevance_score = 1 - item.distance := by
  induction raw with
  | nil => intro count item h; cases tf <;> simp [DocumentQA.collectResults] at h
  | cons hd rest ih =>
    intro count item hm
    cases tf with
    | none =>
      rw [DocumentQA.collectResults] at hm
      by_cases hc : n ≤ count
      · rw [if_pos hc] at hm
        simp at hm
      · rw [if_neg hc] at hm
        rcases List.mem_cons.1 hm with rfl | hm'
        · rfl
        · exact ih (count + 1) item hm'
    | some f =>
      rw [DocumentQA.collectResults] at hm
      by_cases hf : (pyLower (pyGet hd.meta "topic_name" "") != pyLower f) = true
      · rw [if_pos hf] at hm
        exact ih count item hm
      · rw [if_neg hf] at hm
        by_cases hc : n ≤ count
        · rw [if_pos hc] at hm
          simp at hm
        · rw [if_neg hc] at hm
          rcases List.mem_cons.1 hm with rfl | hm'
          · rfl
          · exact ih (count + 1) item hm'

/-- C5 counterexample: a hit at distance 0.1234 yields, in
`SmartQA.load_and_search`, the chunk relevance `round(1 - 0.1234, 3) = 0.877`,
which differs from `1 - 0.1234 = 0.8766`: the attached score is not exactly
1 minus the reported distance for this cited code path. -/
theorem c5_smartqa_relevance_rounds :
    SmartQA.chunks [⟨"doc", [("doc_type", "content_text"), ("topic_name", "T")], 1234/10000⟩]
      = [⟨"doc", "content_text", "T", 877/1000⟩]
    ∧ (877/1000 : ℚ) ≠ 1 - 1234/10000 := by
  have hr : pyRound3 (1 - 1234/10000 : ℚ) = 877/1000 := by
    have h1 : ((1 : ℚ) - 1234/10000) * 1000 = 4383/5 := by norm_num
    have h2 : ⌊(4383/5 : ℚ)⌋ = 876 := by norm_num
    unfold pyRound3 roundHalfEven
    rw [h1, h2]
    norm_num
  constructor
  · simp [SmartQA.chunks, pyGet, hr]
  · norm_num

/-- C5 (amended): every item returned by `DocumentQA.ask` carries
`relevance_score` exactly equal to 1 minus its reported distance; every chunk
of `SmartQA.load_and_search` instead carries `round(1 - distance, 3)` — the
value 1 minus the reported distance rounded to three decimals, within 1/2000
of (but in general not equal to) 1 minus the distance. -/
theorem c5_relevance_score (question : String) (n : Nat) (tf : Option String)
    (query : Nat → Option String → List RawHit) (raw : List RawHit) :
    (∀ item ∈ (DocumentQA.ask question n tf query).all_results,
        item.relevance_score = 1 - item.distance)
    ∧ (∀ c ∈ SmartQA.chunks raw, ∃ h ∈ raw,
        c.relevance = pyRound3 (1 - h.distance)
          ∧ |c.relevance - (1 - h.distance)| ≤ 1/2000) := by
  constructor
  · intro item hm
    exact collectResults_relevance tf n _ 0 item hm
  · intro c hc
    rcases List.mem_map.1 hc with ⟨h, hh, rfl⟩
    exact ⟨h, hh, rfl, by simpa using abs_pyRound3_sub_le (1 - h.distance)⟩

/-- Witness for C5 at a concrete query result. -/
theorem c5_relevance_score_witness :
    (mkResultItem ⟨"d", [], 1/4⟩).relevance_score
      = 1 - (mkResultItem ⟨"d", [], 1/4⟩).distance :=
  (c5_relevance_score "q" 1 none (fun _ _ => [⟨"d", [], 1/4⟩]) []).1
    (mkResultItem ⟨"d", [], 1/4⟩)
    (by simp [DocumentQA.ask, DocumentQA.requestCount, DocumentQA.collectResults])

/-! ### Claim C6: topic filtering -/

lemma collectResults_length_le (f : String) (n : Nat) (raw : List RawHit) :
    ∀ count, (DocumentQA.collectResults (some f) n count raw).length ≤ n - count := by
  induction raw with
  | nil => intro count; simp [DocumentQA.collectResults]
  | cons hd rest ih =>
    intro count
    rw [DocumentQA.collectResults]
    by_cases hf : (pyLower (pyGet hd.meta "topic_name" "") != pyLower f) = true
    · rw [if_pos hf]
      exact ih count
    · rw [if_neg hf]
      by_cases hc : n ≤ count
      · rw [if_pos hc]
        simp
      · rw [if_neg hc]
        have := ih (count + 1)
        simp only [List.length_cons]
        omega

lemma collectResults_filter_mem (f : String) (n : Nat) (raw : List RawHit) :
    ∀ count item, item ∈ DocumentQA.collectResults (some f) n count raw →
      pyLower (pyGet item.metadata "topic_name" "") = pyLower f := by
  induction raw with
  | nil => intro count item h; simp [DocumentQA.collectResults] at h
  | cons hd rest ih =>
    intro count item hm
    rw [DocumentQA.collectResults] at hm
    by_cases hf : (pyLower (pyGet hd.meta "topic_name" "") != pyLower f) = true
    · rw [if_pos hf] at hm
      exact ih count item hm
    · rw [if_neg hf] at hm
      by_cases hc : n ≤ count
      · rw [if_pos hc] at hm
        simp at hm
      · rw [if_neg hc] at hm
        rcases List.mem_cons.1 hm with rfl | hm2
        · have heq : pyLower (pyGet hd.meta "topic_name" "") = pyLower f := by
            simpa using hf
          simpa [mkResultItem] using heq
        · exact ih (count + 1) item hm2

/-- C6: with a topic filter, `DocumentQA.ask` requests `2n` candidates from
the index (and exactly `n` with no filter), filters post-hoc by
case-insensitive equality of the candidate's `topic_name` metadata with the
filter, and returns at most `n` items, every one of which matches the filter
case-insensitively. -/
theorem c6_topic_filter (n : Nat) (f question : String)
    (query : Nat → Option String → List RawHit) :
    DocumentQA.requestCount n (some f) = 2 * n
    ∧ DocumentQA.requestCount n none = n
    ∧ (DocumentQA.ask question n (some f) query).all_results.length ≤ n
    ∧ (∀ item ∈ (DocumentQA.ask question n (some f) query).all_results,
        pyLower (pyGet item.metadata "topic_name" "") = pyLower f) := by
  refine ⟨by simp [DocumentQA.requestCount, Nat.mul_comm], rfl, ?_, ?_⟩
  · have := collectResults_length_le f n
      (query (DocumentQA.requestCount n (some f)) (some f)) 0
    simpa [DocumentQA.ask] using this
  · intro item hm
    exact collectResults_filter_mem f n
      (query (DocumentQA.requestCount n (some f)) (some f)) 0 item hm

/-- Witness for C6 at a concrete query result passing the filter. -/
theorem c6_topic_filter_witness :
    pyLower (pyGet (mkResultItem ⟨"d", [("topic_name", "Alg")], 1/2⟩).metadata
        "topic_name" "") = pyLower "alg" :=
  (c6_topic_filter 1 "alg" "q" (fun _ _ => [⟨"d", [("topic_name", "Alg")], 1/2⟩])).2.2.2
    (mkResultItem ⟨"d", [("topic_name", "Alg")], 1/2⟩)
    (by simp [DocumentQA.ask, DocumentQA.requestCount, DocumentQA.collectResults, pyGet]
        decide)

/-! ### Claim C9: formatter purity -/

/-- C9: the Context Formatter is a pure function of its input result set:
calling `DocumentQA.format_for_llm` twice on the same result set produces
byte-identical output, and likewise for the inline context assembly of
`SmartQA.ask`.  The formatters are modelled as plain functions because the
source only reads its input and builds a fresh local list of lines — it
mutates neither the result set nor the index nor any other state and issues
no re-query. -/
theorem c9_formatter_idempotent (pdf_path : Option String) (unit_name : String)
    (results : Organized) (chapter : String) (similarity : ℚ) (question : String)
    (chunks : List SChunk) :
    DocumentQA.format_for_llm pdf_path unit_name results
        = DocumentQA.format_for_llm pdf_path unit_name results
    ∧ SmartQA.context chapter similarity question chunks
        = SmartQA.context chapter similarity question chunks :=
  ⟨rfl, rfl⟩

/-! ### Claim C8: error behaviour of the indexing step -/

lemma pyIterDyn_ne_dfe (j : Json) :
    pyIterDyn j ≠ Except.error PyError.dataFormatError := by
  cases j <;> simp [pyIterDyn]

lemma pyStrList_ne_dfe (l : List Json) :
    pyStrList l ≠ Except.error PyError.dataFormatError := by
  induction l with
  | nil => simp [pyStrList]
  | cons x rest ih =>
    cases x with
    | str s =>
      simp only [pyStrList]
      cases h : pyStrList rest with
      | error e =>
        rw [h] at ih
        simpa [Except.map] using ih
      | ok l2 => simp [h, Except.map]
    | null => simp [pyStrList]
    | bool b => simp [pyStrList]
    | num q => simp [pyStrList]
    | arr l2 => simp [pyStrList]
    | obj l2 => simp [pyStrList]

lemma pyJoin_ne_dfe (sep : String) (j : Json) :
    pyJoin sep j ≠ Except.error PyError.dataFormatError := by
  unfold pyJoin
  cases h1 : pyIterDyn j with
  | error e =>
    have := pyIterDyn_ne_dfe j
    rw [h1] at this
    simpa using this
  | ok items =>
    cases h2 : pyStrList items with
    | error e =>
      have hne := pyStrList_ne_dfe items
      rw [h2] at hne
      simpa [h2] using hne
    | ok strs => simp [h2]

lemma joinOpt_ne_dfe (a : Json) :
    (if pyTruthy a then (pyJoin ", " a).map some else Except.ok none)
      ≠ Except.error PyError.dataFormatError := by
  by_cases h : pyTruthy a = true
  · rw [if_pos h]
    cases hj : pyJoin ", " a with
    | error e =>
      have := pyJoin_ne_dfe ", " a
      rw [hj] at this
      simpa [Except.map] using this
    | ok s => simp [hj, Except.map]
  · rw [if_neg h]
    simp

lemma pyStripOk_ne_dfe (j : Json) :
    pyStripOk j ≠ Except.error PyError.dataFormatError := by
  cases j <;> simp [pyStripOk]

lemma dynContentDocs_ne_dfe (base : List (String × Json)) (blocks : List Json) :
    ∀ docId, dynContentDocs base docId blocks
      ≠ Except.error PyError.dataFormatError := by
  induction blocks with
  | nil => intro docId; simp [dynContentDocs]
  | cons b rest ih =>
    intro docId
    cases b with
    | obj bf =>
      rw [dynContentDocs]
      cases hps : pyStripOk (pyGetJ bf "text" (Json.str "")) with
      | error e =>
        have hne := pyStripOk_ne_dfe (pyGetJ bf "text" (Json.str ""))
        rw [hps] at hne
        simpa [hps] using hne
      | ok sVal =>
        by_cases hb : pyIsBlank sVal = true
        · simpa [hps, hb] using ih docId
        · cases hrec : dynContentDocs base (docId + 1) rest with
          | error e =>
            have hne := ih (docId + 1)
            rw [hrec] at hne
            simpa [hps, hb, hrec] using hne
          | ok r => simp [hps, hb, hrec]
    | null => simp [dynContentDocs]
    | bool v => simp [dynContentDocs]
    | num q => simp [dynContentDocs]
    | str sv => simp [dynContentDocs]
    | arr l2 => simp [dynContentDocs]

lemma dynConcepts_ne_dfe (head dt : String) (base : List (String × Json)) (d : Nat)
    (jv : Json) : dynConcepts head dt base d jv
      ≠ Except.error PyError.dataFormatError := by
  unfold dynConcepts
  by_cases h : pyTruthy jv = true
  · rw [if_pos h]
    cases hj : pyJoin ", " jv with
    | error e =>
      have hne := pyJoin_ne_dfe ", " jv
      rw [hj] at hne
      simpa [hj] using hne
    | ok joined => simp [hj]
  · rw [if_neg h]
    simp

lemma dynTopicDocs_ne_dfe (sf un : String) (docId : Nat) (topic : Json) :
    dynTopicDocs sf un docId topic ≠ Except.error PyError.dataFormatError := by
  cases topic with
  | obj fields =>
    rw [dynTopicDocs]
    cases h1 : pyIterDyn (pyGetJ fields "learning_objectives" (Json.arr [])) with
    | error e =>
      have hne := pyIterDyn_ne_dfe (pyGetJ fields "learning_objectives" (Json.arr []))
      rw [h1] at hne
      simpa [h1] using hne
    | ok los =>
      simp only [h1]
      cases h2 : dynConcepts
          ("Allowed concepts for " ++ pyStr (pyGetJ fields "topic_name" (Json.str "")) ++
            ": ")
          "allowed_concepts" (dynBase sf un fields)
          (dynLoDocs (dynBase sf un fields) (docId + 1) los).2
          (pyGetJ fields "allowed_concepts" (Json.arr [])) with
      | error e =>
        have hne := dynConcepts_ne_dfe
          ("Allowed concepts for " ++ pyStr (pyGetJ fields "topic_name" (Json.str "")) ++
            ": ")
          "allowed_concepts" (dynBase sf un fields)
          (dynLoDocs (dynBase sf un fields) (docId + 1) los).2
          (pyGetJ fields "allowed_concepts" (Json.arr []))
        rw [h2] at hne
        simpa [h2] using hne
      | ok aPair =>
        simp only [h2]
        cases h3 : dynConcepts "Disallowed concepts (too advanced): "
            "disallowed_concepts" (dynBase sf un fields) aPair.2
            (pyGetJ fields "disallowed_concepts" (Json.arr [])) with
        | error e =>
          have hne := dynConcepts_ne_dfe "Disallowed concepts (too advanced): "
            "disallowed_concepts" (dynBase sf un fields) aPair.2
            (pyGetJ fields "disallowed_concepts" (Json.arr []))
          rw [h3] at hne
          simpa [h3] using hne
        | ok dPair =>
          simp only [h3]
          cases h4 : pyIterDyn (pyGetJ fields "content_blocks" (Json.arr [])) with
          | error e =>
            have hne := pyIterDyn_ne_dfe (pyGetJ fields "content_blocks" (Json.arr []))
            rw [h4] at hne
            simpa [h4] using hne
          | ok blocks =>
            simp only [h4]
            cases h5 : dynContentDocs (dynBase sf un fields) dPair.2 blocks with
            | error e =>
              have hne := dynContentDocs_ne_dfe (dynBase sf un fields) blocks dPair.2
              rw [h5] at hne
              simpa [h5] using hne
            | ok content => simp [h5]
  | null => simp [dynTopicDocs]
  | bool v => simp [dynTopicDocs]
  | num q => simp [dynTopicDocs]
  | str sv => simp [dynTopicDocs]
  | arr l2 => simp [dynTopicDocs]

lemma dynTopicsDocs_ne_dfe (sf un : String) (topics : List Json) :
    ∀ docId, dynTopicsDocs sf un docId topics
      ≠ Except.error PyError.dataFormatError := by
  induction topics with
  | nil => intro docId; simp [dynTopicsDocs]
  | cons t rest ih =>
    intro docId
    rw [dynTopicsDocs]
    cases h1 : dynTopicDocs sf un docId t with
    | error e =>
      have hne := dynTopicDocs_ne_dfe sf un docId t
      rw [h1] at hne
      simpa [h1] using hne
    | ok r =>
      simp only [h1]
      cases h2 : dynTopicsDocs sf un r.2 rest with
      | error e =>
        have hne := ih r.2
        rw [h2] at hne
        simpa [h2] using hne
      | ok more => simp [h2]

/-- C8 counterexample: for the backing JSON `["hello"]`, which is not a valid
Topic array, the indexing step fails with a plain `AttributeError` (raised by
`"hello".get(...)`) and not with a `DataFormatError`: no dedicated error of
that name exists in the code. -/
theorem c8_counterexample :
    dynCreateDocuments "f.json" "u" (Json.arr [Json.str "hello"])
        = Except.error (PyError.attributeError "object has no attribute get")
    ∧ Except.error (PyError.attributeError "object has no attribute get")
        ≠ (Except.error PyError.dataFormatError : Except PyError (List DynChunk)) := by
  exact ⟨rfl, by simp⟩

/-- C8 (amended): the indexing step performs no schema validation and raises
no dedicated error: (a) on every parsed JSON value the indexing either
succeeds or fails with an ordinary `TypeError`/`AttributeError`, never with a
`DataFormatError`; (b) on the invalid document `["hello"]` it fails with an
`AttributeError` — the failure occurs while building chunks, before any
search; (c) on the JSON `{}`, which is not a valid Topic either, it silently
succeeds with a single "Topic: " banner chunk and the engine proceeds to
search. -/
theorem c8_no_data_format_error (sf un : String) :
    (∀ data : Json,
        dynCreateDocuments sf un data ≠ Except.error PyError.dataFormatError)
    ∧ dynCreateDocuments "f.json" "u" (Json.arr [Json.str "hello"])
        = Except.error (PyError.attributeError "object has no attribute get")
    ∧ dynCreateDocuments "f.json" "u" (Json.obj [])
        = Except.ok [⟨"0", "Topic: ",
            [("unit", Json.str "u"), ("topic_id", Json.str ""),
             ("topic_name", Json.str ""), ("source_file", Json.str "f.json"),
             ("doc_type", Json.str "topic_overview")]⟩] := by
  refine ⟨?_, rfl, rfl⟩
  intro data
  unfold dynCreateDocuments
  cases h1 : pyIterDyn (dynLoadNormalize data) with
  | error e =>
    have hne := pyIterDyn_ne_dfe (dynLoadNormalize data)
    rw [h1] at hne
    simpa [h1] using hne
  | ok topics =>
    simpa [h1] using dynTopicsDocs_ne_dfe sf un topics 0
